import Mathlib

/-!
Shallow embedding of the icx-reward reward-reconstruction core
(`icx_reward/vote.py`, `icx_reward/penalty.py`, `icx_reward/reward.py`).
Python dictionaries are modelled as insertion-ordered association lists,
Python arbitrary-precision integers as `Int`, and Python floor division
(the `//` operator) as `Int.fdiv`.  External RPC lookups are passed in as
oracle functions.
-/

/-- Lookup in an insertion-ordered association list, with a default value:
the embedding of Python's `dict.get(k, d)`. -/
def Dict.getD {α β : Type} [DecidableEq α] (m : List (α × β)) (k : α) (d : β) : β :=
  match m.find? (fun kv => kv.1 = k) with
  | some kv => kv.2
  | none => d

/-- Key assignment in an insertion-ordered association list: the embedding of
Python's `d[k] = v`, which overwrites in place when the key exists and
appends at the end otherwise. -/
def Dict.set {α β : Type} [DecidableEq α] (m : List (α × β)) (k : α) (v : β) :
    List (α × β) :=
  if m.any (fun kv => kv.1 = k) then
    m.map (fun kv => if kv.1 = k then (k, v) else kv)
  else
    m ++ [(k, v)]

/-- Membership test in an association list: the embedding of Python's
`k in d`. -/
def Dict.hasKey {α β : Type} [DecidableEq α] (m : List (α × β)) (k : α) : Bool :=
  m.any (fun kv => kv.1 = k)

/-- Value of one hexadecimal digit character (0 for anything else). -/
def hexDigitVal (c : Char) : Nat :=
  if '0' ≤ c ∧ c ≤ '9' then c.toNat - '0'.toNat
  else if 'a' ≤ c ∧ c ≤ 'f' then c.toNat - 'a'.toNat + 10
  else if 'A' ≤ c ∧ c ≤ 'F' then c.toNat - 'A'.toNat + 10
  else 0

/-- Embedding of Python's `int(s, 16)` on the well-formed `0x`-prefixed
hexadecimal strings that appear in event data fields. -/
def parseHex (s : String) : Int :=
  let cs :=
    match s.data with
    | '0' :: 'x' :: rest => rest
    | cs => cs
  Int.ofNat (cs.foldl (fun acc c => acc * 16 + hexDigitVal c) 0)

/-- One decoded on-chain bond/delegation change event
(`vote.py`, class `Vote`): owner address, kind (`TYPE_BOND`/`TYPE_DELEGATE`),
height-offset within the Term, and a map from target PRep address to signed
delta amount. -/
structure Vote where
  owner : String
  type : Nat
  offset : Int
  values : List (String × Int)
deriving Repr, DecidableEq

/-- `Vote.TYPE_BOND` from `vote.py`. -/
def Vote.TYPE_BOND : Nat := 0

/-- `Vote.TYPE_DELEGATE` from `vote.py`. -/
def Vote.TYPE_DELEGATE : Nat := 1

/-- Embedding of `Vote.diff` (`vote.py` lines 58-64): a deep copy of `self`
whose values have every entry of `prev` subtracted pointwise, absent keys
defaulting to 0; with no previous vote the copy is returned as is. -/
def Vote.diff (v : Vote) (prev : Option Vote) : Vote :=
  match prev with
  | none => v
  | some p =>
      { v with values :=
          p.values.foldl (fun m kv => Dict.set m kv.1 (Dict.getD m kv.1 0 - kv.2)) v.values }

/-- Modelled from the spec: the fixed rate denominator (`RATE_DENOM` in the
missing `types/constants.py`); `reward_fund.py` in the repository uses the
same denominator 10000 (`RewardFund.DENOM`). -/
def RATE_DENOM : Int := 10000

/-- Modelled from the spec: address of the system contract
(`SYSTEM_ADDRESS` in the missing `types/constants.py`). -/
def SYSTEM_ADDRESS : String := "cx0000000000000000000000000000000000000000"

/-- Modelled from the spec: recognized event signature for bond changes
(`EventSig.SetBond` in the missing `types/event.py`). -/
def EventSig.SetBond : String := "SetBond(Address,bytes)"

/-- Modelled from the spec: recognized event signature for delegation changes
(`EventSig.SetDelegation` in the missing `types/event.py`). -/
def EventSig.SetDelegation : String := "SetDelegation(Address,bytes)"

/-- Modelled from the spec: recognized event signature for imposed penalties
(`EventSig.Penalty` in the missing `types/event.py`). -/
def EventSig.Penalty : String := "PenaltyImposed(Address,int,int)"

/-- Modelled from the spec: recognized event signature for slash events
(`EventSig.Slash` in the missing `types/event.py`). -/
def EventSig.Slash : String := "Slashed(Address,Address,int)"

/-- Modelled from the spec: the list of vote signatures used by the vote
fetcher (`EventSig.VOTE_SIG_LIST` in the missing `types/event.py`): the two
bond/delegation-change signatures. -/
def EventSig.VOTE_SIG_LIST : List String := [EventSig.SetBond, EventSig.SetDelegation]

/-- One raw log record as returned by the RPC client: contract address,
ordered indexed fields and ordered data fields (all hex/address strings,
exactly as the Python code receives them). -/
structure EventLog where
  scoreAddress : String
  indexed : List String
  data : List String
deriving Repr, DecidableEq

/-- One detected penalty transition (`penalty.py`, class `Penalty`): the
height, the newly-set penalty flag bits (a bitset, embedded as `Nat`) and the
raw penalty/slash log events recorded at that height. -/
structure Penalty where
  height : Int
  flag : Nat
  events : List EventLog
deriving Repr, DecidableEq

/-- Embedding of `Penalty.accumulated_slash_amount` (`penalty.py` lines
18-25): sums, over the Slashed events with two data fields attributable to
`bonder_address` (all events when `bonder_address` is `none`), the event's
hex amount times `end_height - height`. -/
def Penalty.accumulated_slash_amount (p : Penalty) (end_height : Int)
    (bonder_address : Option String) : Int :=
  let period := end_height - p.height
  p.events.foldl
    (fun amount event =>
      if event.indexed.getD 0 "" = EventSig.Slash ∧ event.data.length = 2 then
        if bonder_address = none ∨ some (event.data.getD 0 "") = bonder_address then
          amount + parseHex (event.data.getD 1 "") * period
        else amount
      else amount)
    0

/-- One elected validator with its mutable reward accumulators
(`reward.py`, class `PRep`). -/
structure PRep where
  enable : Bool
  address : String
  bonded : Int
  delegated : Int
  power : Int
  commission_rate : Int
  accumulated_voted : Int
  accumulated_power : Int
  commission : Int
  voter_reward : Int
  wage : Int
  penalties : List Penalty
deriving Repr, DecidableEq

/-- Embedding of `PRep.rewardable` (`reward.py` lines 71-72). -/
def PRep.rewardable (p : PRep) : Bool :=
  p.enable && decide (0 < p.accumulated_power)

/-- Embedding of `PRep.apply_vote_diff` (`reward.py` lines 91-101): apply a
signed vote delta to bonded or delegated, add `value * period` to the
accumulated voted value, recompute `power = min(bonded * 100 // br,
bonded + delegated)` (Python floor division) and add the power change times
the period to the accumulated power. -/
def PRep.apply_vote_diff (p : PRep) (type_ : Nat) (value : Int) (period : Int)
    (br : Int) : PRep :=
  let p1 :=
    if type_ = Vote.TYPE_BOND then { p with bonded := p.bonded + value }
    else { p with delegated := p.delegated + value }
  let p2 := { p1 with accumulated_voted := p1.accumulated_voted + value * period }
  let power := min (Int.fdiv (p2.bonded * 100) br) (p2.bonded + p2.delegated)
  { p2 with
      power := power
      accumulated_power := p2.accumulated_power + (power - p2.power) * period }

/-- Embedding of `PRep.calculate_reward` (`reward.py` lines 103-109): for a
rewardable PRep, `reward = total_prep_reward * accumulated_power //
total_accum_power`, `commission = reward * commission_rate // RATE_DENOM`,
`voter_reward = reward - commission`, and the wage is granted when
`bonded >= min_bond`; a non-rewardable PRep is left unchanged. -/
def PRep.calculate_reward (p : PRep) (total_prep_reward : Int)
    (total_accum_power : Int) (wage : Int) (min_bond : Int) : PRep :=
  if p.rewardable then
    let reward := Int.fdiv (total_prep_reward * p.accumulated_power) total_accum_power
    let commission := Int.fdiv (reward * p.commission_rate) RATE_DENOM
    { p with
        commission := commission
        voter_reward := reward - commission
        wage := if min_bond ≤ p.bonded then wage else p.wage }
  else p

/-- Embedding of `PRep.voter_reward_for` (`reward.py` lines 111-112):
`voter_reward * accumulated_vote // accumulated_voted` with Python floor
division. -/
def PRep.voter_reward_for (p : PRep) (accumulated_vote : Int) : Int :=
  Int.fdiv (p.voter_reward * accumulated_vote) p.accumulated_voted

/-- One voter's computation state (`reward.py`, class `Voter`): address,
term start height, the per-target accumulated vote map and the running
reward total.  The `Votes` input and the offset limit only feed the
vote-integration step, which is not modelled here. -/
structure Voter where
  address : String
  start_height : Int
  accum_votes : List (String × Int)
  reward : Int
deriving Repr, DecidableEq

/-- Embedding of `Voter._update_accumulated_votes_with_slash` (`reward.py`
lines 165-175): for every disabled PRep, for each of its Penalty records,
subtract from this voter's accumulated vote for that PRep the amount
`penalty.accumulated_slash_amount(start_height, voter_address)` — the code
passes the Voter's start height into the `end_height` parameter. -/
def Voter.update_accumulated_votes_with_slash (v : Voter)
    (preps : List (String × PRep)) : Voter :=
  let accum :=
    preps.foldl
      (fun accum kv =>
        let prep := kv.2
        if prep.enable then accum
        else
          prep.penalties.foldl
            (fun acc pen =>
              let amount := pen.accumulated_slash_amount v.start_height (some v.address)
              Dict.set acc prep.address (Dict.getD acc prep.address 0 - amount))
            accum)
      v.accum_votes
  { v with accum_votes := accum }

/-- Per-target contribution of one accumulated-vote entry to the voter's
total reward, as `Voter.calculate_reward` computes it: zero-valued entries
and targets outside the elected roster contribute nothing, every other entry
contributes `prep.voter_reward_for value` (floor division, sign included). -/
def voterContribution (preps : List (String × PRep)) (kv : String × Int) : Int :=
  if kv.2 = 0 then 0
  else
    match (preps.find? (fun e => e.1 = kv.1)).map (fun e => e.2) with
    | none => 0
    | some prep => prep.voter_reward_for kv.2

/-- Embedding of `Voter.calculate_reward` (`reward.py` lines 182-198):
iterate over the accumulated-vote entries, skip zero values and targets that
are not elected PReps, and add `prep.voter_reward_for(value)` to the running
reward for every remaining entry. -/
def Voter.calculate_reward (v : Voter) (preps : List (String × PRep)) : Voter :=
  let reward :=
    v.accum_votes.foldl
      (fun acc kv =>
        if kv.2 = 0 then acc
        else
          match (preps.find? (fun e => e.1 = kv.1)).map (fun e => e.2) with
          | none => acc
          | some prep => acc + prep.voter_reward_for kv.2)
      v.reward
  { v with reward := reward }

/-- The fold inside `Voter.calculate_reward` adds exactly the per-entry
contributions. -/
theorem voter_calculate_reward_foldl (preps : List (String × PRep))
    (l : List (String × Int)) (init : Int) :
    l.foldl
        (fun acc kv =>
          if kv.2 = 0 then acc
          else
            match (preps.find? (fun e => e.1 = kv.1)).map (fun e => e.2) with
            | none => acc
            | some prep => acc + prep.voter_reward_for kv.2)
        init
      = init + (l.map (voterContribution preps)).sum := by
  induction l generalizing init with
  | nil => simp
  | cons hd tl ih =>
      rw [List.foldl_cons, List.map_cons, List.sum_cons, ih]
      unfold voterContribution
      by_cases h0 : hd.2 = 0
      · simp [h0]
      · cases hfind : (preps.find? (fun e => e.1 = hd.1)).map (fun e => e.2) with
        | none => simp [h0, hfind]
        | some prep => simp [h0, hfind]; ring

/-- A PRep with voter reward pool 100 and accumulated voted 10, used to
evaluate the voter reward computation on concrete inputs. -/
def examplePRepPool : PRep :=
  { enable := true, address := "hxp1", bonded := 0, delegated := 0, power := 0,
    commission_rate := 0, accumulated_voted := 10, accumulated_power := 0,
    commission := 0, voter_reward := 100, wage := 0, penalties := [] }

/-- C3 counterexample: a voter whose only accumulated vote is -1 for an
elected PRep with voter reward pool 100 and accumulated voted 10 ends with
total reward -10, not 0: the negative contribution is added to the total,
contradicting the claim that a non-positive accumulated vote contributes
nothing. -/
theorem voter_negative_vote_added :
    (Voter.calculate_reward ⟨"hxv", 100, [("hxp1", -1)], 0⟩
        [("hxp1", examplePRepPool)]).reward = -10
    ∧ (Voter.calculate_reward ⟨"hxv", 100, [("hxp1", -1)], 0⟩
        [("hxp1", examplePRepPool)]).reward ≠ 0 := by decide

/-- C3 amended: `Voter.calculate_reward` adds, for every accumulated-vote
entry, its contribution to the running total: entries with value 0 and
targets outside the elected roster contribute 0, and every other entry —
positive or negative — contributes
`prep.voterRewardPool * value // prep.accumulatedVoted` with Python floor
division, so negative accumulated votes reduce the total instead of being
excluded. -/
theorem voter_reward_accumulation (v : Voter) (preps : List (String × PRep)) :
    (v.calculate_reward preps).reward
        = v.reward + (v.accum_votes.map (voterContribution preps)).sum
    ∧ (∀ a : String, voterContribution preps (a, 0) = 0)
    ∧ (∀ (a : String) (x : Int) (prep : PRep), x ≠ 0 →
        (preps.find? (fun e => e.1 = a)).map (fun e => e.2) = some prep →
        voterContribution preps (a, x)
          = Int.fdiv (prep.voter_reward * x) prep.accumulated_voted)
    ∧ (∀ (a : String) (x : Int),
        (preps.find? (fun e => e.1 = a)).map (fun e => e.2) = none →
        voterContribution preps (a, x) = 0) := by
  refine ⟨?_, ?_, ?_, ?_⟩
  · exact voter_calculate_reward_foldl preps v.accum_votes v.reward
  · intro a
    simp [voterContribution]
  · intro a x prep hx hfind
    simp [voterContribution, hx, hfind, PRep.voter_reward_for]
  · intro a x hfind
    by_cases hx : x = 0 <;> simp [voterContribution, hx, hfind]

/-- Concrete instantiation of the C3 amended theorem: a voter with entries
+5 and -1 for the example PRep roster gets reward
`fdiv (100 * 5) 10 + fdiv (100 * -1) 10 = 50 - 10 = 40`, and the per-entry
contribution of -1 is `fdiv (100 * -1) 10`. -/
theorem voter_reward_accumulation_witness :
    (Voter.calculate_reward ⟨"hxv", 100, [("hxp1", 5), ("hxp1", -1)], 0⟩
        [("hxp1", examplePRepPool)]).reward
      = 0 + ([("hxp1", (5 : Int)), ("hxp1", -1)].map
          (voterContribution [("hxp1", examplePRepPool)])).sum
    ∧ voterContribution [("hxp1", examplePRepPool)] ("hxp1", -1)
      = Int.fdiv (examplePRepPool.voter_reward * -1) examplePRepPool.accumulated_voted :=
  ⟨(voter_reward_accumulation ⟨"hxv", 100, [("hxp1", 5), ("hxp1", -1)], 0⟩
      [("hxp1", examplePRepPool)]).1,
   (voter_reward_accumulation ⟨"hxv", 100, [("hxp1", 5), ("hxp1", -1)], 0⟩
      [("hxp1", examplePRepPool)]).2.2.1 "hxp1" (-1) examplePRepPool
      (by decide) (by decide)⟩

/-- A Penalty record at height 105 holding one Slashed event of amount 0x7
attributed to bonder `hxvoter`, inside term [100, 199]. -/
def examplePenalty105 : Penalty :=
  ⟨105, 4, [⟨SYSTEM_ADDRESS, [EventSig.Slash, "hxprep"], ["hxvoter", "0x7"]⟩]⟩

/-- A disabled PRep carrying the height-105 penalty record. -/
def exampleDisabledPRep : PRep :=
  { enable := false, address := "hxprep", bonded := 0, delegated := 0, power := 0,
    commission_rate := 0, accumulated_voted := 0, accumulated_power := 0,
    commission := 0, voter_reward := 0, wage := 0, penalties := [examplePenalty105] }

/-- C1: evaluated at a concrete failing input (term [100, 199], one disabled
PRep with a single Penalty at height 105 holding one Slashed event of amount
7 for this voter), the code sets the voter's accumulated vote for the PRep to
`-(7 * (100 - 105)) = 35` — it passes the term start height into the
`end_height` parameter of `accumulated_slash_amount` — whereas the claimed
retroactive amount is `7 * (199 - 105) = 658`, which subtraction would take
to -658. -/
theorem voter_slash_uses_start_height :
    (Voter.update_accumulated_votes_with_slash ⟨"hxvoter", 100, [], 0⟩
        [("hxprep", exampleDisabledPRep)]).accum_votes = [("hxprep", 35)]
    ∧ examplePenalty105.accumulated_slash_amount 199 (some "hxvoter") = 658
    ∧ (Voter.update_accumulated_votes_with_slash ⟨"hxvoter", 100, [], 0⟩
        [("hxprep", exampleDisabledPRep)]).accum_votes ≠ [("hxprep", -658)] := by
  decide

/-- Embedding of `Vote.from_event` (`vote.py` lines 84-101): take the
signature and voter address from the indexed fields, strip the `0x` mark from
the single data field and decode it into (address, value) pairs; the binary
RLP payload decoder lives in the missing `types/rlp.py` module and is
modelled from the spec as the oracle `decodeVoteData`.  Every signature other
than SetBond yields a delegation-typed Vote. -/
def Vote.from_event (decodeVoteData : String → List (String × Int)) (offset : Int)
    (event : EventLog) : Vote :=
  let sig := event.indexed.getD 0 ""
  let voter := event.indexed.getD 1 ""
  let vote_data := String.mk ((event.data.getD 0 "").data.drop 2)
  { owner := voter
    type := if sig = EventSig.SetBond then Vote.TYPE_BOND else Vote.TYPE_DELEGATE
    offset := offset
    values := (decodeVoteData vote_data).foldl (fun m av => Dict.set m av.1 av.2) [] }

/-- Embedding of `VoteFetcher.tx_result_to_votes` (`vote.py` lines 277-305).
The two bloom-filter tests are modelled from the spec as the booleans
`bloom_contains_system` and `bloom_contains_vote_sig` (the 2048-bit filter
and its hashed key derivation live in the missing `types/bloom.py` module);
when either test fails no event is decoded.  Each event with exactly two
indexed fields and one data field is then filtered by the source/signature
test and the optional owner test, and the survivors are decoded with
`Vote.from_event`. -/
def VoteFetcher.tx_result_to_votes (decodeVoteData : String → List (String × Int))
    (bloom_contains_system : Bool) (bloom_contains_vote_sig : Bool)
    (offset : Int) (eventLogs : List EventLog) (owner : Option String) : List Vote :=
  if ¬ bloom_contains_system then []
  else if ¬ bloom_contains_vote_sig then []
  else
    eventLogs.foldl
      (fun votes event =>
        if event.indexed.length ≠ 2 ∨ event.data.length ≠ 1 then votes
        else if event.scoreAddress ≠ SYSTEM_ADDRESS
            ∧ event.indexed.getD 0 "" ∉ EventSig.VOTE_SIG_LIST then votes
        else if owner.isSome ∧ some (event.indexed.getD 1 "") ≠ owner then votes
        else votes ++ [Vote.from_event decodeVoteData offset event])
      []

/-- A system-contract event whose signature is not a vote signature. -/
def exampleEventBadSig : EventLog :=
  ⟨SYSTEM_ADDRESS, [EventSig.Penalty, "hxvoter1"], ["0x00"]⟩

/-- A SetBond-signed event from a contract that is not the system contract. -/
def exampleEventBadSource : EventLog :=
  ⟨"cx1111111111111111111111111111111111111111", [EventSig.SetBond, "hxvoter2"], ["0x00"]⟩

/-- C4: evaluated at a concrete failing input, `tx_result_to_votes` turns a
system-contract event with an unrecognized signature, and a foreign-contract
event with the SetBond signature, into Votes: the skip condition requires
both the source check and the signature check to fail before an event is
dropped, so an event failing exactly one of them is still decoded,
contradicting the claim that both must pass. -/
theorem tx_result_to_votes_and_slip :
    VoteFetcher.tx_result_to_votes (fun _ => []) true true 0
        [exampleEventBadSig, exampleEventBadSource] none
      = [⟨"hxvoter1", Vote.TYPE_DELEGATE, 0, []⟩, ⟨"hxvoter2", Vote.TYPE_BOND, 0, []⟩]
    ∧ exampleEventBadSig.indexed.getD 0 "" ∉ EventSig.VOTE_SIG_LIST
    ∧ exampleEventBadSource.scoreAddress ≠ SYSTEM_ADDRESS := by decide

/-- Per-voter ordered vote history (`vote.py`, class `Votes`): separate
bond and delegation sequences, built by appending. -/
structure Votes where
  owner : String
  bonds : List Vote
  delegations : List Vote
deriving Repr, DecidableEq

/-- Embedding of `Votes.append_vote` (`vote.py` lines 164-168). -/
def Votes.append_vote (vs : Votes) (v : Vote) : Votes :=
  if v.type = Vote.TYPE_BOND then { vs with bonds := vs.bonds ++ [v] }
  else { vs with delegations := vs.delegations ++ [v] }

/-- Embedding of `Votes.from_dict` (`vote.py` lines 196-201): append every
stored bond and delegation vote in order, dispatching on each vote's own
type. -/
def Votes.from_dict (owner : String) (bonds delegations : List Vote) : Votes :=
  (bonds ++ delegations).foldl Votes.append_vote ⟨owner, [], []⟩

/-- The vote fetcher's state (`vote.py`, class `VoteFetcher`): requested
height range and accumulated per-voter votes. -/
structure VoteFetcher where
  start_height : Int
  end_height : Int
  votes : List (String × Votes)
deriving Repr, DecidableEq

/-- A previously exported votes snapshot (`vote.py` `to_dict`/`_import`):
stored height range and per-address bond/delegation vote lists. -/
structure VoteSnapshot where
  startHeight : Int
  endHeight : Int
  votes : List (String × (List Vote × List Vote))
deriving Repr, DecidableEq

/-- Embedding of `VoteFetcher._import` (`vote.py` lines 223-230): reject the
snapshot with an invalid-input error when its height range differs from the
fetcher's, leaving the accumulated votes untouched (the check precedes every
assignment); otherwise store each address's rebuilt Votes.  The error is
returned alongside the post-state. -/
def VoteFetcher.importVotes (vf : VoteFetcher) (snap : VoteSnapshot) :
    Option String × VoteFetcher :=
  if vf.start_height ≠ snap.startHeight ∨ vf.end_height ≠ snap.endHeight then
    (some "Invalid import vote file. check startHeight and endHeight", vf)
  else
    let votes :=
      snap.votes.foldl
        (fun acc kv => Dict.set acc kv.1 (Votes.from_dict kv.1 kv.2.1 kv.2.2))
        vf.votes
    (none, { vf with votes := votes })

/-- C7: importing a snapshot fails with the invalid-input error exactly when
the stored startHeight or endHeight differs from the fetcher's requested
range, and on failure the fetcher's state — in particular its accumulated
per-voter votes — is unchanged. -/
theorem vote_fetcher_import_height_check (vf : VoteFetcher) (snap : VoteSnapshot) :
    ((vf.importVotes snap).1.isSome = true
        ↔ (vf.start_height ≠ snap.startHeight ∨ vf.end_height ≠ snap.endHeight))
    ∧ (vf.start_height ≠ snap.startHeight ∨ vf.end_height ≠ snap.endHeight
        → (vf.importVotes snap).2 = vf) := by
  by_cases h : vf.start_height ≠ snap.startHeight ∨ vf.end_height ≠ snap.endHeight <;>
    simp [VoteFetcher.importVotes, h]

/-- Concrete instantiation of the C7 theorem: a fetcher for [100, 199] given
a snapshot tagged [100, 198] raises and keeps its votes; given a snapshot
tagged [100, 199] it does not raise. -/
theorem vote_fetcher_import_height_check_witness :
    ((VoteFetcher.mk 100 199 []).importVotes ⟨100, 198, []⟩).2 = ⟨100, 199, []⟩
    ∧ ((VoteFetcher.mk 100 199 []).importVotes ⟨100, 199, []⟩).1.isSome = false :=
  ⟨(vote_fetcher_import_height_check ⟨100, 199, []⟩ ⟨100, 198, []⟩).2
      (Or.inr (by decide)),
   by
    have h := (vote_fetcher_import_height_check ⟨100, 199, []⟩ ⟨100, 199, []⟩).1
    simp at h ⊢
    exact h⟩

/-- The penalty fetcher's state (`penalty.py`, class `PenaltyFetcher`):
target address, height range and the penalties found so far. -/
structure PenaltyFetcher where
  address : String
  start_height : Int
  end_height : Int
  penalties : List Penalty
deriving Repr, DecidableEq

/-- Embedding of `PenaltyFetcher.__init__` together with `_is_prep`
(`penalty.py` lines 34-41 and 59-60): the external `rpc.get_prep` lookup is
modelled as the oracle `is_prep` (false covers the JSONRPCException case in
`_get_prep`); construction raises the invalid-input error unless the address
is an elected PRep at `end_height`, and otherwise starts with an empty
penalty map. -/
def PenaltyFetcher.init (is_prep : Int → Bool) (address : String)
    (start_height end_height : Int) : Except String PenaltyFetcher :=
  if is_prep end_height then
    Except.ok ⟨address, start_height, end_height, []⟩
  else
    Except.error (address ++ " is not P-Rep")

/-- C8: constructing a PenaltyFetcher fails with the invalid-input error when
the address is not an elected PRep at `end_height`, and succeeds with an
empty initial penalty map when it is. -/
theorem penalty_fetcher_init_prep_check (is_prep : Int → Bool) (address : String)
    (start_height end_height : Int) :
    (is_prep end_height = false
        → PenaltyFetcher.init is_prep address start_height end_height
          = Except.error (address ++ " is not P-Rep"))
    ∧ (is_prep end_height = true
        → PenaltyFetcher.init is_prep address start_height end_height
          = Except.ok ⟨address, start_height, end_height, []⟩) := by
  constructor <;> intro h <;> simp [PenaltyFetcher.init, h]

/-- Concrete instantiation of the C8 theorem: an oracle that recognizes no
PRep makes construction fail, and one that recognizes every PRep makes it
succeed with no penalties. -/
theorem penalty_fetcher_init_prep_check_witness :
    PenaltyFetcher.init (fun _ => false) "hxa" 100 199
      = Except.error ("hxa" ++ " is not P-Rep")
    ∧ PenaltyFetcher.init (fun _ => true) "hxa" 100 199
      = Except.ok ⟨"hxa", 100, 199, []⟩ :=
  ⟨(penalty_fetcher_init_prep_check (fun _ => false) "hxa" 100 199).1 rfl,
   (penalty_fetcher_init_prep_check (fun _ => true) "hxa" 100 199).2 rfl⟩

/-- Embedding of `PRepReward.calculate_reward` (`reward.py` lines 314-323):
`wage = total_wage // len(preps)` — a ZeroDivisionError, modelled as `none`,
when the roster is empty — then every PRep's reward is computed with that
per-PRep wage. -/
def PRepReward.calculate_reward (preps : List (String × PRep))
    (total_wage total_prep_reward total_accum_power min_bond : Int) :
    Option (List (String × PRep)) :=
  if preps.length = 0 then none
  else
    let wage := Int.fdiv total_wage (preps.length : Int)
    some (preps.map (fun kv =>
      (kv.1, kv.2.calculate_reward total_prep_reward total_accum_power wage min_bond)))

/-- C10: the per-PRep wage division has no guard, so the division-by-zero
error is raised exactly on an empty roster; on a non-empty roster the
computation is total, every PRep is processed with
`wage = total_wage // len(preps)`, and a rewardable PRep whose bond meets the
minimum is assigned exactly that wage. -/
theorem prep_reward_wage_division (preps : List (String × PRep))
    (total_wage total_prep_reward total_accum_power min_bond : Int) :
    (PRepReward.calculate_reward preps total_wage total_prep_reward total_accum_power min_bond
        = none ↔ preps = [])
    ∧ (preps ≠ []
        → PRepReward.calculate_reward preps total_wage total_prep_reward total_accum_power min_bond
          = some (preps.map (fun kv =>
              (kv.1, kv.2.calculate_reward total_prep_reward total_accum_power
                (Int.fdiv total_wage (preps.length : Int)) min_bond))))
    ∧ (∀ p : PRep, p.rewardable = true → min_bond ≤ p.bonded
        → (p.calculate_reward total_prep_reward total_accum_power
            (Int.fdiv total_wage (preps.length : Int)) min_bond).wage
          = Int.fdiv total_wage (preps.length : Int)) := by
  refine ⟨?_, ?_, ?_⟩
  · constructor
    · intro h
      by_cases hl : preps.length = 0
      · exact List.length_eq_zero.mp hl
      · simp [PRepReward.calculate_reward, hl] at h
    · intro h
      simp [PRepReward.calculate_reward, h]
  · intro h
    have hl : preps.length ≠ 0 := fun hc => h (List.length_eq_zero.mp hc)
    simp [PRepReward.calculate_reward, hl]
  · intro p hr hb
    simp [PRep.calculate_reward, hr, hb]

/-- A rewardable PRep: enabled, positive accumulated power, bonded 1000. -/
def exampleRewardablePRep : PRep :=
  { enable := true, address := "hxp", bonded := 1000, delegated := 0, power := 1000,
    commission_rate := 1000, accumulated_voted := 0, accumulated_power := 100,
    commission := 0, voter_reward := 0, wage := 0, penalties := [] }

/-- Concrete instantiation of the C10 theorem: a one-PRep roster with total
wage 1000 is processed with per-PRep wage `1000 // 1`, and the rewardable
PRep whose bond meets the minimum is assigned exactly that wage. -/
theorem prep_reward_wage_division_witness :
    PRepReward.calculate_reward [("hxp", exampleRewardablePRep)] 1000 500 200 100
      = some ([("hxp", exampleRewardablePRep)].map (fun kv =>
          (kv.1, kv.2.calculate_reward 500 200
            (Int.fdiv 1000 (([("hxp", exampleRewardablePRep)].length : Nat) : Int)) 100)))
    ∧ (exampleRewardablePRep.calculate_reward 500 200
        (Int.fdiv 1000 (([("hxp", exampleRewardablePRep)].length : Nat) : Int)) 100).wage
      = Int.fdiv 1000 (([("hxp", exampleRewardablePRep)].length : Nat) : Int) :=
  ⟨(prep_reward_wage_division [("hxp", exampleRewardablePRep)] 1000 500 200 100).2.1
      (by decide),
   (prep_reward_wage_division [("hxp", exampleRewardablePRep)] 1000 500 200 100).2.2
      exampleRewardablePRep (by decide) (by decide)⟩

/-- The newly-set bits `~cur & f` of the Python IntFlag expression in
`PenaltyFetcher.run` (`penalty.py` line 81): the bits set in `f` but not in
`cur`, computed over the 8-bit domain that contains every PenaltyFlag value
(the largest defined flag bit is 0x20). -/
def newlySetBits (cur f : Nat) : Nat :=
  (List.range 8).foldl
    (fun acc i => if (f >>> i) % 2 = 1 ∧ (cur >>> i) % 2 = 0 then acc + 2 ^ i else acc)
    0

/-- Embedding of `PenaltyFetcher._add_penalty` (`penalty.py` lines 94-99):
store a Penalty record under its height in the penalties map; the block/event
fetch of `_get_events` is the oracle `getEv`. -/
def addPenalty (acc : List Penalty) (height : Int) (flag : Nat)
    (events : List EventLog) : List Penalty :=
  if acc.any (fun p => p.height = height) then
    acc.map (fun p => if p.height = height then ⟨height, flag, events⟩ else p)
  else
    acc ++ [⟨height, flag, events⟩]

/-- The while loop of `PenaltyFetcher.run` (`penalty.py` lines 74-92),
with the penalty-flag lookup `_get_penalty_flag` as the oracle `flagAt`
(flag bitsets embedded as `Nat`) and an explicit iteration budget: `none`
means the budget was exhausted before the Python loop would have returned,
so every `some` result is the loop's actual outcome.  One iteration:
`mid = (low + high) // 2`; if the flag at `mid` still equals `cur`, search
above `mid`; otherwise, if the flag at `mid - 1` equals `cur`, record a
penalty at `mid - 1` whose newly-set bits are `~cur & flag(mid)`, stop when
the target flag is reached and otherwise restart above `mid` with the full
upper bound; if the flag already differs at `mid - 1`, search below `mid`. -/
def penLoop (flagAt : Int → Nat) (getEv : Int → List EventLog) (endH : Int)
    (target : Nat) :
    Nat → Int → Int → Nat → List Penalty → Option (List Penalty)
  | 0, low, high, _, acc => if low ≤ high then none else some acc
  | fuel + 1, low, high, cur, acc =>
    if low ≤ high then
      let mid := Int.fdiv (low + high) 2
      let f := flagAt mid
      if f ≠ cur then
        let prev := flagAt (mid - 1)
        if prev = cur then
          let acc2 := addPenalty acc (mid - 1) (newlySetBits cur f) (getEv (mid - 1))
          if f = target then some acc2
          else penLoop flagAt getEv endH target fuel (mid + 1) endH f acc2
        else penLoop flagAt getEv endH target fuel low (mid - 1) cur acc
      else penLoop flagAt getEv endH target fuel (mid + 1) high cur acc
    else some acc

/-- Embedding of `PenaltyFetcher.run` (`penalty.py` lines 65-92): read the
flags at both ends of the range, return the empty map when they agree, and
otherwise bisect for every transition. -/
def penaltyFetcherRun (flagAt : Int → Nat) (getEv : Int → List EventLog)
    (start_height end_height : Int) (fuel : Nat) : Option (List Penalty) :=
  let cur := flagAt start_height
  let target := flagAt end_height
  if cur = target then some []
  else penLoop flagAt getEv end_height target fuel start_height end_height cur []

/-- The penalty-flag history of the C2 scenario: flag 0 strictly below
height 130 and flag 0x4 from height 130 on. -/
def flagStep130 : Int → Nat := fun h => if h < 130 then 0 else 4

/-- C2 counterexample: running the Penalty Locator over [100, 150] on the
step history that switches from 0 to 0x4 at height 130 records exactly one
penalty — but at height 129 (the last height whose flag still reads 0), not
at the claimed height 130. -/
theorem penalty_locator_records_129 :
    penaltyFetcherRun flagStep130 (fun _ => []) 100 150 60
      = some [⟨129, 4, []⟩]
    ∧ ((penaltyFetcherRun flagStep130 (fun _ => []) 100 150 60).getD []).all
        (fun p => p.height != 130) = true := by decide

/-- One unfolding of the bisection loop, with the local variables of the
Python body inlined. -/
theorem penLoop_succ (flagAt : Int → Nat) (getEv : Int → List EventLog)
    (endH : Int) (target : Nat) (fuel : Nat) (low high : Int) (cur : Nat)
    (acc : List Penalty) :
    penLoop flagAt getEv endH target (fuel + 1) low high cur acc
      = if low ≤ high then
          if flagAt (Int.fdiv (low + high) 2) ≠ cur then
            if flagAt (Int.fdiv (low + high) 2 - 1) = cur then
              if flagAt (Int.fdiv (low + high) 2) = target then
                some (addPenalty acc (Int.fdiv (low + high) 2 - 1)
                  (newlySetBits cur (flagAt (Int.fdiv (low + high) 2)))
                  (getEv (Int.fdiv (low + high) 2 - 1)))
              else
                penLoop flagAt getEv endH target fuel (Int.fdiv (low + high) 2 + 1) endH
                  (flagAt (Int.fdiv (low + high) 2))
                  (addPenalty acc (Int.fdiv (low + high) 2 - 1)
                    (newlySetBits cur (flagAt (Int.fdiv (low + high) 2)))
                    (getEv (Int.fdiv (low + high) 2 - 1)))
            else penLoop flagAt getEv endH target fuel low (Int.fdiv (low + high) 2 - 1) cur acc
          else penLoop flagAt getEv endH target fuel (Int.fdiv (low + high) 2 + 1) high cur acc
        else some acc := rfl

/-- C2 amended: for every penalty-flag history that reads 0 on [100, 129] and
0x4 on [130, 150] (a single transition first visible at height 130), the
Penalty Locator over [100, 150] records exactly one penalty — at height 129,
the last height whose flag still reads the old value, with newly-set bits
0x4 — and terminates well within a 60-iteration budget. -/
theorem penalty_locator_single_transition (flagAt : Int → Nat)
    (getEv : Int → List EventLog)
    (h0 : ∀ h : Int, 100 ≤ h → h ≤ 129 → flagAt h = 0)
    (h4 : ∀ h : Int, 130 ≤ h → h ≤ 150 → flagAt h = 4) :
    penaltyFetcherRun flagAt getEv 100 150 60 = some [⟨129, 4, getEv 129⟩] := by
  have e100 : flagAt 100 = 0 := h0 100 (by norm_num) (by norm_num)
  have e125 : flagAt 125 = 0 := h0 125 (by norm_num) (by norm_num)
  have e128 : flagAt 128 = 0 := h0 128 (by norm_num) (by norm_num)
  have e129 : flagAt 129 = 0 := h0 129 (by norm_num) (by norm_num)
  have e130 : flagAt 130 = 4 := h4 130 (by norm_num) (by norm_num)
  have e131 : flagAt 131 = 4 := h4 131 (by norm_num) (by norm_num)
  have e137 : flagAt 137 = 4 := h4 137 (by norm_num) (by norm_num)
  have e138 : flagAt 138 = 4 := h4 138 (by norm_num) (by norm_num)
  have e150 : flagAt 150 = 4 := h4 150 (by norm_num) (by norm_num)
  unfold penaltyFetcherRun
  rw [e100, e150]
  rw [if_neg (by decide : ¬ (0 : Nat) = 4)]
  rw [show (60 : Nat) = 59 + 1 from rfl, penLoop_succ]
  rw [if_pos (by decide : (100 : Int) ≤ 150)]
  rw [show Int.fdiv ((100 : Int) + 150) 2 = 125 from by decide, e125]
  rw [if_neg (by decide : ¬ ((0 : Nat) ≠ 0))]
  rw [show ((125 : Int) + 1) = 126 from by decide]
  rw [show (59 : Nat) = 58 + 1 from rfl, penLoop_succ]
  rw [if_pos (by decide : (126 : Int) ≤ 150)]
  rw [show Int.fdiv ((126 : Int) + 150) 2 = 138 from by decide, e138]
  rw [if_pos (by decide : (4 : Nat) ≠ 0)]
  rw [show ((138 : Int) - 1) = 137 from by decide, e137]
  rw [if_neg (by decide : ¬ ((4 : Nat) = 0))]
  rw [show (58 : Nat) = 57 + 1 from rfl, penLoop_succ]
  rw [if_pos (by decide : (126 : Int) ≤ 137)]
  rw [show Int.fdiv ((126 : Int) + 137) 2 = 131 from by decide, e131]
  rw [if_pos (by decide : (4 : Nat) ≠ 0)]
  rw [show ((131 : Int) - 1) = 130 from by decide, e130]
  rw [if_neg (by decide : ¬ ((4 : Nat) = 0))]
  rw [show (57 : Nat) = 56 + 1 from rfl, penLoop_succ]
  rw [if_pos (by decide : (126 : Int) ≤ 130)]
  rw [show Int.fdiv ((126 : Int) + 130) 2 = 128 from by decide, e128]
  rw [if_neg (by decide : ¬ ((0 : Nat) ≠ 0))]
  rw [show ((128 : Int) + 1) = 129 from by decide]
  rw [show (56 : Nat) = 55 + 1 from rfl, penLoop_succ]
  rw [if_pos (by decide : (129 : Int) ≤ 130)]
  rw [show Int.fdiv ((129 : Int) + 130) 2 = 129 from by decide, e129]
  rw [if_neg (by decide : ¬ ((0 : Nat) ≠ 0))]
  rw [show ((129 : Int) + 1) = 130 from by decide]
  rw [show (55 : Nat) = 54 + 1 from rfl, penLoop_succ]
  rw [if_pos (by decide : (130 : Int) ≤ 130)]
  rw [show Int.fdiv ((130 : Int) + 130) 2 = 130 from by decide, e130]
  rw [if_pos (by decide : (4 : Nat) ≠ 0)]
  rw [show ((130 : Int) - 1) = 129 from by decide, e129]
  rw [if_pos (by decide : (0 : Nat) = 0)]
  rw [if_pos (by decide : (4 : Nat) = 4)]
  rw [show newlySetBits 0 4 = 4 from by decide]
  rfl

/-- Concrete instantiation of the C2 amended theorem on the step history
`flagStep130` with no attached events. -/
theorem penalty_locator_single_transition_witness :
    penaltyFetcherRun flagStep130 (fun _ => []) 100 150 60 = some [⟨129, 4, []⟩] :=
  penalty_locator_single_transition flagStep130 (fun _ => [])
    (fun h _ h2 => by
      have hlt : h < 130 := by omega
      simp [flagStep130, hlt])
    (fun h h1 _ => by
      have hge : ¬ h < 130 := by omega
      simp [flagStep130, hge])

/-- C9: for every Vote `v`, `v.diff(None) == v`: diffing against no previous
Vote is the identity, producing a Vote with the same owner, type, offset and
value map (in this pure embedding the result is `v` itself, so `v` is
trivially unmodified). -/
theorem vote_diff_none_identity (v : Vote) : v.diff none = v := rfl

/-- C5: for every rewardable PRep and every positive computed reward
`reward = total_prep_reward * accumulated_power // total_accum_power`
(Python floor division), the commission is
`reward * commission_rate // RATE_DENOM`, the voter reward pool is
`reward - commission`, and `commission + voterRewardPool = reward` exactly. -/
theorem prep_reward_split_exact (p : PRep) (total_prep_reward total_accum_power wage min_bond : Int)
    (hr : p.rewardable = true)
    (hpos : 0 < Int.fdiv (total_prep_reward * p.accumulated_power) total_accum_power) :
    (p.calculate_reward total_prep_reward total_accum_power wage min_bond).commission
        = Int.fdiv (Int.fdiv (total_prep_reward * p.accumulated_power) total_accum_power
            * p.commission_rate) RATE_DENOM
    ∧ (p.calculate_reward total_prep_reward total_accum_power wage min_bond).commission
        + (p.calculate_reward total_prep_reward total_accum_power wage min_bond).voter_reward
        = Int.fdiv (total_prep_reward * p.accumulated_power) total_accum_power := by
  simp only [PRep.calculate_reward, hr, if_true]
  exact ⟨trivial, by ring⟩

/-- Concrete instantiation of the C5 theorem: a rewardable PRep with
accumulated power 100, total reward 500000, total power 100000 and
commission rate 1000. -/
theorem prep_reward_split_exact_witness :
    let p : PRep := ⟨true, "hxp", 1000, 0, 1000, 1000, 0, 100, 0, 0, 0, []⟩
    (p.calculate_reward 500000 100000 7 100).commission
        = Int.fdiv (Int.fdiv (500000 * p.accumulated_power) 100000 * p.commission_rate) RATE_DENOM
    ∧ (p.calculate_reward 500000 100000 7 100).commission
        + (p.calculate_reward 500000 100000 7 100).voter_reward
        = Int.fdiv (500000 * p.accumulated_power) 100000 :=
  prep_reward_split_exact ⟨true, "hxp", 1000, 0, 1000, 1000, 0, 100, 0, 0, 0, []⟩
    500000 100000 7 100 (by decide) (by decide)

/-- C6: applying any vote diff (any vote type, signed delta, period and
positive bond requirement) to a PRep satisfying `power ≤ bonded + delegated`
yields a state that still satisfies `power ≤ bonded + delegated`, and whose
power equals `min(bonded * 100 // br, bonded + delegated)` recomputed from
the updated bonded/delegated values. -/
theorem prep_apply_vote_diff_power_invariant (p : PRep) (type_ : Nat)
    (value period br : Int)
    (hinv : p.power ≤ p.bonded + p.delegated) (hbr : 0 < br) :
    (p.apply_vote_diff type_ value period br).power
        ≤ (p.apply_vote_diff type_ value period br).bonded
          + (p.apply_vote_diff type_ value period br).delegated
    ∧ (p.apply_vote_diff type_ value period br).power
        = min (Int.fdiv ((p.apply_vote_diff type_ value period br).bonded * 100) br)
            ((p.apply_vote_diff type_ value period br).bonded
              + (p.apply_vote_diff type_ value period br).delegated) := by
  by_cases ht : type_ = Vote.TYPE_BOND <;>
    simp only [PRep.apply_vote_diff, ht, if_true, if_false] <;>
    exact ⟨min_le_right _ _, trivial⟩

/-- Concrete instantiation of the C6 theorem: a bond delta of -40 applied to
a PRep with bonded 100, delegated 50, power 150, bond requirement 5. -/
theorem prep_apply_vote_diff_power_invariant_witness :
    let p : PRep := ⟨true, "hxp", 100, 50, 150, 0, 0, 0, 0, 0, 0, []⟩
    (p.apply_vote_diff Vote.TYPE_BOND (-40) 10 5).power
        ≤ (p.apply_vote_diff Vote.TYPE_BOND (-40) 10 5).bonded
          + (p.apply_vote_diff Vote.TYPE_BOND (-40) 10 5).delegated
    ∧ (p.apply_vote_diff Vote.TYPE_BOND (-40) 10 5).power
        = min (Int.fdiv ((p.apply_vote_diff Vote.TYPE_BOND (-40) 10 5).bonded * 100) 5)
            ((p.apply_vote_diff Vote.TYPE_BOND (-40) 10 5).bonded
              + (p.apply_vote_diff Vote.TYPE_BOND (-40) 10 5).delegated) :=
  prep_apply_vote_diff_power_invariant ⟨true, "hxp", 100, 50, 150, 0, 0, 0, 0, 0, 0, []⟩
    Vote.TYPE_BOND (-40) 10 5 (by decide) (by decide)
